import Mathlib

/-!
Verification of the BlackLake Python SDK (`src/sdks/python/blacklake/`):
a shallow embedding of the request dispatcher (`client.py`,
`BlackLakeClient._request` and `_get_headers`), the exception taxonomy
(`exceptions.py`), the search response model (`models.py`,
`SearchResponse` / `SearchResult` / `SearchFacet`) and the façade
request builders (`create_repository`, `get_repository_tree`, `search`,
`commit_upload`), with theorems settling the behavioural claims about
status-code classification, error messages, header merging, falsy-argument
omission and the derived search views.
-/

/-- A decoded JSON value, as produced by the transport's `response.json()`.
Numbers are modelled as integers: every numeric value occurring in the
claims (status counts, limits, offsets) is integral. -/
inductive Json where
  | null : Json
  | bool (b : Bool) : Json
  | num (n : Int) : Json
  | str (s : String) : Json
  | arr (elems : List Json) : Json
  | obj (members : List (String × Json)) : Json
deriving Repr

/-- Python `repr()` of a decoded JSON value (string escaping elided; no
claim evaluates it on a string needing escapes). -/
def pyRepr : Json → String
  | .null => "None"
  | .bool true => "True"
  | .bool false => "False"
  | .num n => toString n
  | .str s => "'" ++ s ++ "'"
  | .arr es =>
      "[" ++ String.intercalate ", " (es.attach.map (fun e => pyRepr e.1)) ++ "]"
  | .obj ms =>
      "\x7b" ++ String.intercalate ", "
        (ms.attach.map (fun m => "'" ++ m.1.1 ++ "': " ++ pyRepr m.1.2)) ++ "\x7d"
decreasing_by
  · have h := List.sizeOf_lt_of_mem e.2
    simp only [Json.arr.sizeOf_spec]
    omega
  · have h := List.sizeOf_lt_of_mem m.2
    have h2 : sizeOf m.1.2 < sizeOf m.1 := by
      obtain ⟨k, v⟩ := m.1
      simp only [Prod.mk.sizeOf_spec]
      omega
    simp only [Json.obj.sizeOf_spec]
    omega

/-- Python `str()` / f-string interpolation of a decoded JSON value, as used
in `client.py` line 121 (`f"API error: {error_message}"`): a string renders
as its own content, numbers in decimal, `True`/`False`/`None` for the
singletons, and containers by their `repr`. -/
def pyStr : Json → String
  | .str s => s
  | j => pyRepr j

/-- The exception taxonomy of `exceptions.py`: the base `BlackLakeError`
and its subclasses, each carrying its message (`details` defaults to the
empty mapping everywhere in the source and is never populated, so it is
elided). A value of this type is exactly "a taxonomy member". -/
inductive SDKException where
  | blackLakeError (message : String)
  | authenticationError (message : String)
  | authorizationError (message : String)
  | notFoundError (message : String)
  | validationError (message : String)
  | rateLimitError (message : String)
  | serverError (message : String)
  | networkError (message : String)
  | timeoutError (message : String)
deriving Repr, DecidableEq

/-- The message carried by a taxonomy member (`BlackLakeError.message`). -/
def SDKException.message : SDKException → String
  | .blackLakeError m | .authenticationError m | .authorizationError m
  | .notFoundError m | .validationError m | .rateLimitError m
  | .serverError m | .networkError m | .timeoutError m => m

/-- Whether a taxonomy member is the `NetworkError` subclass. -/
def SDKException.isNetworkErr : SDKException → Bool
  | .networkError _ => true
  | _ => false

/-- An HTTP response as observed by `_request`: the status code, the value
of `response.headers.get("content-type", "")`, the raw text body
(`response.text`), and the result of `response.json()` — `none` when the
body is not parseable JSON (where the Python call raises
`json.JSONDecodeError`). -/
structure HttpResponse where
  status : Nat
  contentType : String
  bodyText : String
  bodyJson : Option Json
deriving Repr

/-- What one `_request` round trip observes from the transport: either an
HTTP response, or an `httpx.RequestError` (connection refused, DNS
failure, timeout, TLS failure) whose `str(e)` is the carried description. -/
inductive RequestEvent where
  | response (resp : HttpResponse)
  | transportFailure (desc : String)
deriving Repr

/-- The outcome of `_request`: a returned payload, a raised taxonomy
member, or a non-taxonomy Python exception escaping (named by its class,
e.g. `json.JSONDecodeError` from `response.json()` on a malformed body). -/
inductive DispatchResult where
  | success (payload : Json)
  | sdkError (e : SDKException)
  | pythonError (exceptionClass : String)
deriving Repr

/-- Whether a dispatch outcome is a raised taxonomy member. -/
def DispatchResult.isTaxonomyFailure : DispatchResult → Bool
  | .sdkError _ => true
  | _ => false

/-- Python's `str.startswith(pre)`: a character-level prefix test, used by
`_request` for `response.headers.get("content-type", "").startswith("application/json")`. -/
def pyStartswith (s pre : String) : Bool := pre.data.isPrefixOf s.data

/-- The status-classification and body-decoding of `_request`
(`client.py` lines 111-127): `401`→`AuthenticationError`,
`403`→`AuthorizationError`, `404`→`NotFoundError`, other `>=400`→generic
`BlackLakeError` with the message built from the JSON `error` field or
`HTTP {code}`; on `<400`, the parsed JSON when the content type starts
with `application/json`, else the wrapper around `response.text`.
`error_data.get(...)` on a non-object JSON value raises `AttributeError`
in Python, modelled as the corresponding escaping exception. -/
def handleResponse (resp : HttpResponse) : DispatchResult :=
  if resp.status == 401 then
    .sdkError (.authenticationError "Authentication failed")
  else if resp.status == 403 then
    .sdkError (.authorizationError "Access denied")
  else if resp.status == 404 then
    .sdkError (.notFoundError "Resource not found")
  else if resp.status ≥ 400 then
    if pyStartswith resp.contentType "application/json" then
      match resp.bodyJson with
      | none => .pythonError "json.JSONDecodeError"
      | some (.obj members) =>
          let errorMessage :=
            match members.lookup "error" with
            | some v => pyStr v
            | none => "HTTP " ++ toString resp.status
          .sdkError (.blackLakeError ("API error: " ++ errorMessage))
      | some _ => .pythonError "AttributeError"
    else
      .sdkError (.blackLakeError ("API error: HTTP " ++ toString resp.status))
  else
    if pyStartswith resp.contentType "application/json" then
      match resp.bodyJson with
      | some j => .success j
      | none => .pythonError "json.JSONDecodeError"
    else
      .success (.obj [("data", .str resp.bodyText)])

/-- `BlackLakeClient._request` (`client.py` lines 102-130): handle the
response, and catch `httpx.RequestError` re-raising
`BlackLakeError(f"Request failed: {e}")`. The taxonomy members raised by
the status classification are not `httpx.RequestError` subclasses, so
they propagate unchanged through the `except` clause. -/
def request (ev : RequestEvent) : DispatchResult :=
  match ev with
  | .response resp => handleResponse resp
  | .transportFailure desc =>
      .sdkError (.blackLakeError ("Request failed: " ++ desc))

/-- Python dict assignment `d[k] = v` on a string-keyed dict modelled as an
association list: replace the value in place when the key is present,
append otherwise. -/
def dictSet (d : List (String × String)) (k v : String) : List (String × String) :=
  if d.any (fun p => p.1 == k) then
    d.map (fun p => if p.1 == k then (k, v) else p)
  else
    d ++ [(k, v)]

/-- Python `d.update(u)`: assign every pair of `u` into `d` in order. -/
def dictUpdate (d u : List (String × String)) : List (String × String) :=
  u.foldl (fun acc p => dictSet acc p.1 p.2) d

/-- `BlackLakeClient._get_headers` (`client.py` lines 50-60): content type,
user agent, and — when `self.api_key` is truthy, i.e. not `None` and not
the empty string — the bearer authorization header. `version` stands for
the package `__version__` interpolated into the user agent. -/
def getHeaders (version : String) (apiKey : Option String) : List (String × String) :=
  let headers := [("Content-Type", "application/json"),
                  ("User-Agent", "blacklake-sdk-python/" ++ version)]
  match apiKey with
  | some k => if k ≠ "" then headers ++ [("Authorization", "Bearer " ++ k)] else headers
  | none => headers

/-- The header merge of `_request` (`client.py` lines 98-100):
`request_headers = self._get_headers()`, then `request_headers.update(headers)`
when the call-specific `headers` argument is truthy (not `None`, not empty). -/
def requestHeaders (version : String) (apiKey : Option String)
    (callHeaders : Option (List (String × String))) : List (String × String) :=
  let rh := getHeaders version apiKey
  match callHeaders with
  | some hs => if hs ≠ [] then dictUpdate rh hs else rh
  | none => rh

/-- `SearchResult` (`models.py` lines 42-54): the four required string
fields, with the optional fields (`content_type`, `size`, `modified_at`,
`classification`, `score`, `highlights`) carried as their raw decoded
values when present — their pydantic type coercion is not exercised by any
claim. -/
structure SearchResult where
  id : String
  repo_name : String
  path : String
  name : String
  content_type : Option Json := none
  size : Option Json := none
  modified_at : Option Json := none
  classifField : Option Json := none
  score : Option Json := none
  highlights : Option Json := none
deriving Repr

/-- Pydantic construction `SearchResult(**result)`: requires the four
string fields; `none` models the `ValidationError` pydantic raises when
one is missing or not a string. -/
def SearchResult.fromJson : Json → Option SearchResult
  | .obj kvs =>
    match kvs.lookup "id", kvs.lookup "repo_name",
          kvs.lookup "path", kvs.lookup "name" with
    | some (.str i), some (.str r), some (.str p), some (.str n) =>
        some { id := i, repo_name := r, path := p, name := n,
               content_type := kvs.lookup "content_type",
               size := kvs.lookup "size",
               modified_at := kvs.lookup "modified_at",
               classifField := kvs.lookup "classification",
               score := kvs.lookup "score",
               highlights := kvs.lookup "highlights" }
    | _, _, _, _ => none
  | _ => none

/-- `SearchFacet` (`models.py` lines 57-61): a name and the list of facet
values, each a string-or-integer-valued object. -/
structure SearchFacet where
  name : String
  values : List Json
deriving Repr

/-- One facet value is a dict with string or integer values
(`List[Dict[str, Union[str, int]]]`). -/
def facetValueOk : Json → Bool
  | .obj kvs => kvs.all (fun p => match p.2 with
      | .str _ => true
      | .num _ => true
      | _ => false)
  | _ => false

/-- Pydantic construction `SearchFacet(**facet)`. -/
def SearchFacet.fromJson : Json → Option SearchFacet
  | .obj kvs =>
    match kvs.lookup "name", kvs.lookup "values" with
    | some (.str n), some (.arr vs) =>
        if vs.all facetValueOk then some ⟨n, vs⟩ else none
    | _, _ => none
  | _ => none

/-- `SearchResponse` (`models.py` lines 64-68): the success flag and the
raw data envelope (`Dict[str, Any]`). The derived views below are
`@property` methods, recomputed from `self.data` on every access. -/
structure SearchResponse where
  success : Bool
  data : List (String × Json)
deriving Repr

/-- Pydantic construction `SearchResponse(**response)` on the decoded
envelope. -/
def SearchResponse.fromJson : Json → Option SearchResponse
  | .obj kvs =>
    match kvs.lookup "success", kvs.lookup "data" with
    | some (.bool b), some (.obj d) => some ⟨b, d⟩
    | _, _ => none
  | _ => none

/-- The `results` property (`models.py` lines 70-73):
`[SearchResult(**result) for result in self.data.get("results", [])]`.
`none` models the exception escaping from the comprehension when an
element is not a valid result dict or the value is not a list. -/
def SearchResponse.resultsView (sr : SearchResponse) : Option (List SearchResult) :=
  match sr.data.lookup "results" with
  | none => some []
  | some (.arr xs) => xs.mapM SearchResult.fromJson
  | some _ => none

/-- The `total` property (`models.py` lines 75-78):
`self.data.get("total", 0)` — returned as-is, the `int` annotation is not
enforced at access time. -/
def SearchResponse.totalView (sr : SearchResponse) : Json :=
  (sr.data.lookup "total").getD (.num 0)

/-- The `limit` property (`models.py` lines 80-83): `self.data.get("limit", 20)`. -/
def SearchResponse.limitView (sr : SearchResponse) : Json :=
  (sr.data.lookup "limit").getD (.num 20)

/-- The `offset` property (`models.py` lines 85-88): `self.data.get("offset", 0)`. -/
def SearchResponse.offsetView (sr : SearchResponse) : Json :=
  (sr.data.lookup "offset").getD (.num 0)

/-- The `facets` property (`models.py` lines 90-94):
`[SearchFacet(**facet) for facet in self.data.get("facets", [])]`. -/
def SearchResponse.facetsView (sr : SearchResponse) : Option (List SearchFacet) :=
  match sr.data.lookup "facets" with
  | none => some []
  | some (.arr xs) => xs.mapM SearchFacet.fromJson
  | some _ => none

/-- In-place mutation of the data envelope of an already-constructed
`SearchResponse` (`resp.data[...] = ...` / `resp.data = d`), leaving the
success flag untouched. -/
def SearchResponse.setData (sr : SearchResponse) (d : List (String × Json)) : SearchResponse :=
  { sr with data := d }

/-- Python truthiness of an optional string argument: `None` and `""` are
falsy, every other string is truthy. -/
def pyTruthyStr : Option String → Bool
  | none => false
  | some s => s ≠ ""

/-- Python truthiness of an optional dict argument: `None` and the empty
dict are falsy. -/
def pyTruthyDict : Option (List (String × Json)) → Bool
  | none => false
  | some d => !d.isEmpty

/-- The request body built by `create_repository` (`client.py` lines
150-152): always the name, plus the description only when it is truthy. -/
def createRepositoryPayload (nameArg : String) (description : Option String) :
    List (String × Json) :=
  let payload := [("name", Json.str nameArg)]
  if pyTruthyStr description then
    payload ++ [("description", Json.str (description.getD ""))]
  else
    payload

/-- The query parameters built by `get_repository_tree` (`client.py`
lines 164-166): the path only when it is truthy. -/
def getRepositoryTreeParams (path : Option String) : List (String × Json) :=
  let params := []
  if pyTruthyStr path then
    params ++ [("path", Json.str (path.getD ""))]
  else
    params

/-- The query parameters built by `search` (`client.py` lines 195-204):
always `q`, `limit`, `offset`; the `repo` and `classification` filters
only when truthy. -/
def searchParams (query : String) (limit offset : Int)
    (repo classif : Option String) : List (String × Json) :=
  let params := [("q", Json.str query), ("limit", Json.num limit),
                 ("offset", Json.num offset)]
  let params := if pyTruthyStr repo then
    params ++ [("repo", Json.str (repo.getD ""))] else params
  if pyTruthyStr classif then
    params ++ [("classification", Json.str (classif.getD ""))]
  else
    params

/-- The request body built by `commit_upload` (`client.py` lines 280-286):
always the upload id and message, plus the metadata only when truthy. -/
def commitUploadPayload (uploadId messageArg : String)
    (metadata : Option (List (String × Json))) : List (String × Json) :=
  let payload := [("upload_id", Json.str uploadId),
                  ("message", Json.str messageArg)]
  if pyTruthyDict metadata then
    payload ++ [("metadata", Json.obj (metadata.getD []))]
  else
    payload

/-- The outcome of a façade operation: the parsed model, a propagated
taxonomy member, or an escaping non-taxonomy Python exception (in the
search façade, a pydantic `ValidationError` from `SearchResponse(**response)`). -/
inductive FacadeResult (α : Type) where
  | ok (a : α)
  | sdkError (e : SDKException)
  | pythonError (exceptionClass : String)
deriving Repr

/-- `BlackLakeClient.search` (`client.py` lines 177-207) downstream of the
transport: dispatch the observed round trip, then construct
`SearchResponse(**response)` from the returned payload; dispatcher
failures propagate unchanged. -/
def searchFacade (ev : RequestEvent) : FacadeResult SearchResponse :=
  match request ev with
  | .success j =>
      match SearchResponse.fromJson j with
      | some sr => .ok sr
      | none => .pythonError "pydantic.ValidationError"
  | .sdkError e => .sdkError e
  | .pythonError n => .pythonError n

/-- The decoded server reply of the C8 search scenario: the envelope
whose `data` member carries one result with id `"1"` and `total = 1`. -/
def c8Data : List (String × Json) :=
  [("results", .arr [.obj [("id", .str "1"), ("repo_name", .str "r"),
     ("path", .str "a/b.csv"), ("name", .str "b.csv")]]),
   ("total", .num 1), ("limit", .num 10), ("offset", .num 0)]

/-- The full C8 scenario reply
`{"success": true, "data": {...}}` as a decoded JSON value. -/
def c8Envelope : Json := .obj [("success", .bool true), ("data", .obj c8Data)]

theorem lookup_append_single (l : List (String × String)) (a k v : String) :
    (l ++ [(k, v)]).lookup a =
      (l.lookup a).orElse (fun _ => if (a == k) = true then some v else none) := by
  induction l with
  | nil =>
    cases hak : a == k with
    | true => simp [List.lookup_cons, hak]
    | false => simp [List.lookup_cons, hak]
  | cons p ps ih =>
    obtain ⟨pk, pv⟩ := p
    rw [List.cons_append, List.lookup_cons, List.lookup_cons]
    cases hap : a == pk with
    | true => rfl
    | false => exact ih

theorem lookup_none_of_any_false (d : List (String × String)) (k : String)
    (h : (d.any (fun p => p.1 == k)) = false) : d.lookup k = none := by
  induction d with
  | nil => rfl
  | cons p ps ih =>
    obtain ⟨pk, pv⟩ := p
    rw [List.any_cons] at h
    have h1 : (pk == k) = false := by
      cases hpk : pk == k with
      | true => rw [hpk] at h; simp at h
      | false => rfl
    have h2 : (ps.any (fun p => p.1 == k)) = false := by
      cases hps : ps.any (fun p => p.1 == k) with
      | true => rw [hps] at h; simp at h
      | false => rfl
    rw [List.lookup_cons]
    have hk1 : (k == pk) = false := by
      cases hk : k == pk with
      | true => rw [eq_of_beq hk] at h1; rw [beq_self_eq_true] at h1; exact absurd h1 (by simp)
      | false => rfl
    rw [hk1]
    exact ih h2

theorem lookup_eq_none_of_not_mem (l : List (String × String)) (a : String)
    (h : a ∉ l.map Prod.fst) : l.lookup a = none := by
  apply lookup_none_of_any_false
  cases hl : l.any (fun p => p.1 == a) with
  | false => rfl
  | true =>
    exfalso
    rw [List.any_eq_true] at hl
    obtain ⟨p, hp, hp2⟩ := hl
    exact h (List.mem_map.mpr ⟨p, hp, eq_of_beq hp2⟩)

theorem lookup_map_set_hit (d : List (String × String)) (k v : String)
    (hmem : (d.any (fun p => p.1 == k)) = true) :
    (d.map (fun p => if p.1 == k then (k, v) else p)).lookup k = some v := by
  induction d with
  | nil => simp at hmem
  | cons p ps ih =>
    obtain ⟨pk, pv⟩ := p
    rw [List.map_cons]
    cases hp : pk == k with
    | true =>
      simp only [hp, if_true, List.lookup_cons, beq_self_eq_true]
    | false =>
      simp only [hp, Bool.false_eq_true, if_false, List.lookup_cons]
      have hps : (ps.any (fun p => p.1 == k)) = true := by
        rw [List.any_cons, hp, Bool.false_or] at hmem
        exact hmem
      have hkpk : (k == pk) = false := by
        cases hk : k == pk with
        | true => rw [eq_of_beq hk, beq_self_eq_true] at hp; exact absurd hp (by simp)
        | false => rfl
      rw [hkpk]
      exact ih hps

theorem lookup_map_set_other (d : List (String × String)) (k v a : String)
    (hne : (a == k) = false) :
    (d.map (fun p => if p.1 == k then (k, v) else p)).lookup a = d.lookup a := by
  induction d with
  | nil => rfl
  | cons p ps ih =>
    obtain ⟨pk, pv⟩ := p
    rw [List.map_cons]
    cases hp : pk == k with
    | true =>
      have hpk : pk = k := eq_of_beq hp
      subst hpk
      simp only [beq_self_eq_true, if_true, List.lookup_cons, hne]
      exact ih
    | false =>
      simp only [hp, Bool.false_eq_true, if_false, List.lookup_cons]
      cases hap : a == pk with
      | true => rfl
      | false => exact ih

theorem lookup_dictSet (d : List (String × String)) (k v a : String) :
    (dictSet d k v).lookup a = if (a == k) = true then some v else d.lookup a := by
  unfold dictSet
  cases hmem : d.any (fun p => p.1 == k) with
  | true =>
    rw [if_pos rfl]
    cases hka : a == k with
    | true =>
      rw [if_pos rfl, eq_of_beq hka]
      exact lookup_map_set_hit d k v hmem
    | false =>
      rw [if_neg (by simp)]
      exact lookup_map_set_other d k v a hka
  | false =>
    rw [if_neg (by simp), lookup_append_single]
    cases hka : a == k with
    | true =>
      have ha : a = k := eq_of_beq hka
      subst ha
      have hnone := lookup_none_of_any_false d a hmem
      simp [hnone]
    | false =>
      cases hd : d.lookup a with
      | none => simp
      | some w => simp

theorem lookup_dictUpdate (u d : List (String × String)) (a : String)
    (hu : (u.map Prod.fst).Nodup) :
    (dictUpdate d u).lookup a = (u.lookup a).orElse (fun _ => d.lookup a) := by
  induction u generalizing d with
  | nil => simp [dictUpdate]
  | cons p us ih =>
    obtain ⟨k, v⟩ := p
    rw [List.map_cons, List.nodup_cons] at hu
    have step : dictUpdate d ((k, v) :: us) = dictUpdate (dictSet d k v) us := rfl
    rw [step, ih (dictSet d k v) hu.2, List.lookup_cons]
    cases hka : a == k with
    | true =>
      have hnone : us.lookup a = none := by
        apply lookup_eq_none_of_not_mem
        rw [eq_of_beq hka]
        exact hu.1
      simp [hnone, lookup_dictSet, hka]
    | false =>
      simp [lookup_dictSet, hka]

/-- C1: for every HTTP response observed by `_request`, status 401 makes it
fail with `AuthenticationError`, 403 with `AuthorizationError`, and 404
with `NotFoundError`, whatever the content type and body content; since
401, 403 and 404 are all `>= 400`, the universally quantified body also
shows these checks take precedence over the generic `>= 400` branch. -/
theorem c1_status_taxonomy (resp : HttpResponse) :
    (resp.status = 401 →
      handleResponse resp = .sdkError (.authenticationError "Authentication failed")) ∧
    (resp.status = 403 →
      handleResponse resp = .sdkError (.authorizationError "Access denied")) ∧
    (resp.status = 404 →
      handleResponse resp = .sdkError (.notFoundError "Resource not found")) := by
  refine ⟨fun h => ?_, fun h => ?_, fun h => ?_⟩ <;> simp [handleResponse, h]

/-- Witness for C1 at concrete responses whose JSON bodies carry an
`error` field, confirming the body is ignored. -/
theorem c1_status_taxonomy_witness :
    handleResponse ⟨401, "application/json", "b", some (.obj [("error", .str "x")])⟩ =
      .sdkError (.authenticationError "Authentication failed") ∧
    handleResponse ⟨403, "application/json", "b", some (.obj [("error", .str "x")])⟩ =
      .sdkError (.authorizationError "Access denied") ∧
    handleResponse ⟨404, "application/json", "b", some (.obj [("error", .str "x")])⟩ =
      .sdkError (.notFoundError "Resource not found") :=
  ⟨(c1_status_taxonomy _).1 rfl, (c1_status_taxonomy _).2.1 rfl,
   (c1_status_taxonomy _).2.2 rfl⟩

/-- C2 counterexample: at status 500 with a JSON body whose `error` field
is `"boom"`, the raised message is `"API error: boom"`, not the field
value `"boom"` — `client.py` line 121 prefixes `"API error: "`. -/
theorem c2_counterexample :
    handleResponse ⟨500, "application/json", "", some (.obj [("error", .str "boom")])⟩ =
      .sdkError (.blackLakeError "API error: boom") ∧
    "API error: boom" ≠ "boom" := by
  refine ⟨?_, by decide⟩
  have hct : pyStartswith "application/json" "application/json" = true := by decide
  simp only [handleResponse, hct]
  rfl

/-- C2 as amended: for status `>= 400` outside 401/403/404, the dispatcher
raises the generic `BlackLakeError` whose message is `"API error: "`
followed by the stringified JSON `error` field when the response is a
JSON object carrying one, and by `"HTTP {code}"` when the JSON object
lacks the field or the response is not JSON (a JSON content type whose
body is not an object instead escapes as a decode error, see C4). -/
theorem c2_amended_api_error_message (resp : HttpResponse)
    (h400 : 400 ≤ resp.status) (h401 : resp.status ≠ 401)
    (h403 : resp.status ≠ 403) (h404 : resp.status ≠ 404) :
    (∀ members v, pyStartswith resp.contentType "application/json" = true →
        resp.bodyJson = some (.obj members) → members.lookup "error" = some v →
        handleResponse resp = .sdkError (.blackLakeError ("API error: " ++ pyStr v))) ∧
    (∀ members, pyStartswith resp.contentType "application/json" = true →
        resp.bodyJson = some (.obj members) → members.lookup "error" = none →
        handleResponse resp =
          .sdkError (.blackLakeError ("API error: HTTP " ++ toString resp.status))) ∧
    (pyStartswith resp.contentType "application/json" = false →
        handleResponse resp =
          .sdkError (.blackLakeError ("API error: HTTP " ++ toString resp.status))) := by
  have hb1 : (resp.status == 401) = false := by simp [h401]
  have hb3 : (resp.status == 403) = false := by simp [h403]
  have hb4 : (resp.status == 404) = false := by simp [h404]
  refine ⟨fun members v hct hbody herr => ?_, fun members hct hbody herr => ?_,
          fun hct => ?_⟩
  · simp [handleResponse, hb1, hb3, hb4, h400, hct, hbody, herr]
  · simp [handleResponse, hb1, hb3, hb4, h400, hct, hbody, herr]
    rw [← String.append_assoc]
    rfl
  · simp [handleResponse, hb1, hb3, hb4, h400, hct]

/-- Witness for the amended C2 at status 500 and 502 responses covering
the three message shapes. -/
theorem c2_amended_api_error_message_witness :
    handleResponse ⟨500, "application/json", "", some (.obj [("error", .str "boom")])⟩ =
      .sdkError (.blackLakeError "API error: boom") ∧
    handleResponse ⟨500, "application/json", "", some (.obj [])⟩ =
      .sdkError (.blackLakeError "API error: HTTP 500") ∧
    handleResponse ⟨502, "text/html", "gateway", none⟩ =
      .sdkError (.blackLakeError "API error: HTTP 502") := by
  refine ⟨?_, ?_, ?_⟩
  · exact (c2_amended_api_error_message
      ⟨500, "application/json", "", some (.obj [("error", .str "boom")])⟩
      (by decide) (by decide) (by decide) (by decide)).1
      [("error", .str "boom")] (.str "boom") (by decide) rfl rfl
  · exact (c2_amended_api_error_message ⟨500, "application/json", "", some (.obj [])⟩
      (by decide) (by decide) (by decide) (by decide)).2.1 [] (by decide) rfl rfl
  · exact (c2_amended_api_error_message ⟨502, "text/html", "gateway", none⟩
      (by decide) (by decide) (by decide) (by decide)).2.2 (by decide)

/-- C3 counterexample: a transport failure is re-raised as the base
`BlackLakeError`, not as the `NetworkError` member the claim names —
`NetworkError` is defined in `exceptions.py` but never raised by
`client.py`. -/
theorem c3_counterexample :
    request (.transportFailure "Connection refused") =
      .sdkError (.blackLakeError "Request failed: Connection refused") ∧
    (SDKException.blackLakeError "Request failed: Connection refused").isNetworkErr
      = false :=
  ⟨rfl, rfl⟩

/-- C3 as amended: every transport-level failure is caught and re-raised
as the base taxonomy member `BlackLakeError` (not the `NetworkError`
subclass), carrying the underlying cause's description in its message
after the `"Request failed: "` prefix. -/
theorem c3_amended_transport (desc : String) :
    request (.transportFailure desc) =
      .sdkError (.blackLakeError ("Request failed: " ++ desc)) ∧
    (SDKException.blackLakeError ("Request failed: " ++ desc)).message =
      "Request failed: " ++ desc :=
  ⟨rfl, rfl⟩

/-- C4 counterexample: a 301 response (a non-2xx outcome) is returned as a
success payload instead of being mapped to a taxonomy member, and a 500
response with JSON content type but malformed body lets
`json.JSONDecodeError` escape unclassified. -/
theorem c4_counterexample :
    handleResponse ⟨301, "text/html", "Moved", none⟩ =
      .success (.obj [("data", .str "Moved")]) ∧
    (handleResponse ⟨301, "text/html", "Moved", none⟩).isTaxonomyFailure = false ∧
    handleResponse ⟨500, "application/json", "not json", none⟩ =
      .pythonError "json.JSONDecodeError" ∧
    (handleResponse ⟨500, "application/json", "not json", none⟩).isTaxonomyFailure
      = false := by
  have hct : pyStartswith "text/html" "application/json" = false := by decide
  have hct2 : pyStartswith "application/json" "application/json" = true := by decide
  refine ⟨?_, ?_, ?_, ?_⟩ <;>
    simp [handleResponse, hct, hct2, DispatchResult.isTaxonomyFailure]

/-- C4 as amended: every `>= 400` response whose body is a JSON object
whenever its content type indicates JSON, and every transport failure, is
mapped to a taxonomy member (exactly one, the dispatcher being a
function); `3xx` statuses fall into the success path, and a `>= 400`
JSON-content-type response with a malformed body escapes as an
unclassified decode error. -/
theorem c4_amended_classification (ev : RequestEvent) :
    (∀ resp, ev = .response resp → 400 ≤ resp.status →
        (pyStartswith resp.contentType "application/json" = true →
          ∃ members, resp.bodyJson = some (.obj members)) →
        (request ev).isTaxonomyFailure = true) ∧
    (∀ desc, ev = .transportFailure desc →
        (request ev).isTaxonomyFailure = true) := by
  constructor
  · rintro resp rfl h400 hjson
    show (handleResponse resp).isTaxonomyFailure = true
    unfold handleResponse
    cases h1 : resp.status == 401 with
    | true => simp [DispatchResult.isTaxonomyFailure]
    | false =>
      cases h3 : resp.status == 403 with
      | true => simp [DispatchResult.isTaxonomyFailure]
      | false =>
        cases h4 : resp.status == 404 with
        | true => simp [DispatchResult.isTaxonomyFailure]
        | false =>
          rw [if_neg (by simp), if_neg (by simp), if_neg (by simp),
              if_pos (by exact h400)]
          cases hct : pyStartswith resp.contentType "application/json" with
          | true =>
            obtain ⟨members, hm⟩ := hjson hct
            rw [if_pos rfl, hm]
            rfl
          | false =>
            rw [if_neg (by simp)]
            rfl
  · rintro desc rfl
    rfl

/-- Witness for the amended C4 at a 503 plain-text response and a DNS
transport failure. -/
theorem c4_amended_classification_witness :
    (request (.response ⟨503, "text/plain", "unavailable", none⟩)).isTaxonomyFailure
      = true ∧
    (request (.transportFailure "DNS failure")).isTaxonomyFailure = true :=
  ⟨(c4_amended_classification _).1 ⟨503, "text/plain", "unavailable", none⟩ rfl
      (by decide) (fun h => absurd h (by decide)),
   (c4_amended_classification _).2 "DNS failure" rfl⟩

/-- C5: the derived views of a `SearchResponse` are recomputed from the
current data envelope on every access: after any mutation of the
envelope, all five views agree with those of any other response holding
the same envelope — the prior state is invisible — and a concrete
mutation of `total` is reflected (`0` before, `5` after), so no view is a
stale cached copy. -/
theorem c5_views_reflect_mutation (sr sr2 : SearchResponse)
    (d : List (String × Json)) :
    ((sr.setData d).resultsView = (sr2.setData d).resultsView ∧
     (sr.setData d).totalView = (sr2.setData d).totalView ∧
     (sr.setData d).limitView = (sr2.setData d).limitView ∧
     (sr.setData d).offsetView = (sr2.setData d).offsetView ∧
     (sr.setData d).facetsView = (sr2.setData d).facetsView) ∧
    ((sr.setData d).totalView = SearchResponse.totalView ⟨sr.success, d⟩) ∧
    ((SearchResponse.mk true []).setData [("total", .num 5)]).totalView = .num 5 ∧
    (SearchResponse.mk true []).totalView = .num 0 :=
  ⟨⟨rfl, rfl, rfl, rfl, rfl⟩, rfl, rfl, rfl⟩

/-- C6: for status `< 400`, the dispatcher returns the parsed JSON
structure when the content type indicates JSON (and the body parses), and
otherwise returns the wrapper object around the raw text body. -/
theorem c6_success_decoding (resp : HttpResponse) (hlt : resp.status < 400) :
    (∀ j, pyStartswith resp.contentType "application/json" = true →
        resp.bodyJson = some j → handleResponse resp = .success j) ∧
    (pyStartswith resp.contentType "application/json" = false →
        handleResponse resp = .success (.obj [("data", .str resp.bodyText)])) := by
  have hb1 : (resp.status == 401) = false := by rw [beq_eq_false_iff_ne]; omega
  have hb3 : (resp.status == 403) = false := by rw [beq_eq_false_iff_ne]; omega
  have hb4 : (resp.status == 404) = false := by rw [beq_eq_false_iff_ne]; omega
  have hge : ¬(400 ≤ resp.status) := by omega
  refine ⟨fun j hct hbody => ?_, fun hct => ?_⟩
  · simp [handleResponse, hb1, hb3, hb4, hge, hct, hbody]
  · simp [handleResponse, hb1, hb3, hb4, hge, hct]

/-- Witness for C6 at a JSON 200 response and a plain-text 200 response. -/
theorem c6_success_decoding_witness :
    (200 : Nat) < 400 ∧
    handleResponse ⟨200, "application/json", "", some (.num 7)⟩ = .success (.num 7) ∧
    handleResponse ⟨200, "text/plain", "hello", none⟩ =
      .success (.obj [("data", .str "hello")]) :=
  ⟨by decide,
   (c6_success_decoding ⟨200, "application/json", "", some (.num 7)⟩ (by decide)).1
     (.num 7) (by decide) rfl,
   (c6_success_decoding ⟨200, "text/plain", "hello", none⟩ (by decide)).2 (by decide)⟩

/-- C7: the outgoing headers are the defaults (content type, user agent,
bearer authorization when an API key is configured) merged with the
call-specific headers under Python dict-update semantics — a call header
replaces a default of the same name, all other lookups fall through to
the defaults — and for a client with a (truthy) API key the headers of a
call without an Authorization override carry
`Authorization: Bearer <key>`; façade calls pass no extra headers, the
`none` case. Conversely, with no API key configured (`None` or the falsy
empty string) the defaults carry no Authorization header. -/
theorem c7_header_merge (version key : String) (hs : List (String × String))
    (hkey : key ≠ "") (hnodup : (hs.map Prod.fst).Nodup) :
    (∀ a : String,
      (requestHeaders version (some key) (some hs)).lookup a =
        (hs.lookup a).orElse (fun _ => (getHeaders version (some key)).lookup a)) ∧
    (getHeaders version (some key)).lookup "Authorization" =
      some ("Bearer " ++ key) ∧
    (requestHeaders version (some key) none).lookup "Authorization" =
      some ("Bearer " ++ key) ∧
    (hs.lookup "Authorization" = none →
      (requestHeaders version (some key) (some hs)).lookup "Authorization" =
        some ("Bearer " ++ key)) ∧
    (getHeaders version none).lookup "Authorization" = none ∧
    (getHeaders version (some "")).lookup "Authorization" = none := by
  have hGH : getHeaders version (some key) =
      [("Content-Type", "application/json"),
       ("User-Agent", "blacklake-sdk-python/" ++ version),
       ("Authorization", "Bearer " ++ key)] := by
    have h0 : getHeaders version (some key) =
        (if key ≠ "" then
          [("Content-Type", "application/json"),
           ("User-Agent", "blacklake-sdk-python/" ++ version)] ++
            [("Authorization", "Bearer " ++ key)]
        else
          [("Content-Type", "application/json"),
           ("User-Agent", "blacklake-sdk-python/" ++ version)]) := rfl
    rw [h0, if_pos hkey]
    rfl
  have hauth : (getHeaders version (some key)).lookup "Authorization" =
      some ("Bearer " ++ key) := by
    rw [hGH]
    simp [List.lookup_cons]
  have hmerge : ∀ a : String,
      (requestHeaders version (some key) (some hs)).lookup a =
        (hs.lookup a).orElse (fun _ => (getHeaders version (some key)).lookup a) := by
    intro a
    cases hs with
    | nil => simp [requestHeaders]
    | cons p ps =>
      have h1 : requestHeaders version (some key) (some (p :: ps)) =
          dictUpdate (getHeaders version (some key)) (p :: ps) := by
        have h0 : requestHeaders version (some key) (some (p :: ps)) =
            (if (p :: ps) ≠ [] then
              dictUpdate (getHeaders version (some key)) (p :: ps)
            else getHeaders version (some key)) := rfl
        rw [h0, if_pos (by simp)]
      rw [h1]
      exact lookup_dictUpdate (p :: ps) (getHeaders version (some key)) a hnodup
  refine ⟨hmerge, hauth, ?_, fun hno => ?_, ?_, ?_⟩
  · show (getHeaders version (some key)).lookup "Authorization" = some ("Bearer " ++ key)
    exact hauth
  · rw [hmerge "Authorization", hno]
    simpa using hauth
  · show List.lookup "Authorization"
        [("Content-Type", "application/json"),
         ("User-Agent", "blacklake-sdk-python/" ++ version)] = none
    simp [List.lookup_cons]
  · show List.lookup "Authorization"
        (if ("" : String) ≠ "" then
          [("Content-Type", "application/json"),
           ("User-Agent", "blacklake-sdk-python/" ++ version)] ++
            [("Authorization", "Bearer " ++ "")]
        else
          [("Content-Type", "application/json"),
           ("User-Agent", "blacklake-sdk-python/" ++ version)]) = none
    rw [if_neg (by simp)]
    simp [List.lookup_cons]

/-- Witness for C7: a call-specific content type overrides the default,
and a plain call carries the bearer key. -/
theorem c7_header_merge_witness :
    ("k123" : String) ≠ "" ∧
    (requestHeaders "0.1.0" (some "k123")
        (some [("Content-Type", "text/csv")])).lookup "Content-Type" =
      some "text/csv" ∧
    (requestHeaders "0.1.0" (some "k123") none).lookup "Authorization" =
      some "Bearer k123" := by
  have h := c7_header_merge "0.1.0" "k123" [("Content-Type", "text/csv")]
    (by decide) (by simp)
  refine ⟨by decide, ?_, ?_⟩
  · rw [h.1 "Content-Type"]
    rfl
  · exact h.2.2.1

/-- C8: the search scenario — `q="invoice"`, `limit=10`, `offset=0`
builds exactly the unfiltered parameter set, and against the scenario
reply the façade yields a `SearchResponse` whose `results` view is the
single result with id `"1"` and whose `total` view is `1`. -/
theorem c8_search_scenario :
    searchParams "invoice" 10 0 none none =
      [("q", .str "invoice"), ("limit", .num 10), ("offset", .num 0)] ∧
    searchFacade (.response ⟨200, "application/json", "", some c8Envelope⟩) =
      .ok ⟨true, c8Data⟩ ∧
    (SearchResponse.mk true c8Data).resultsView =
      some [{ id := "1", repo_name := "r", path := "a/b.csv", name := "b.csv" }] ∧
    (SearchResponse.mk true c8Data).totalView = .num 1 :=
  ⟨rfl, rfl, rfl, rfl⟩

/-- C9: each optional string or mapping argument of the four façade
builders is omitted from the outgoing request whenever its own value is
falsy (`None`, the empty string, or the empty mapping), independently of
the other arguments: `create_repository` omits `description`,
`get_repository_tree` omits `path`, `search` omits `repo` and
`classification` (each regardless of whether the other filter is
present), and `commit_upload` omits `metadata`. -/
theorem c9_falsy_omission (nameArg uploadId messageArg query : String)
    (limit offset : Int) (description path repo classif : Option String)
    (metadata : Option (List (String × Json))) :
    (pyTruthyStr description = false →
      (createRepositoryPayload nameArg description).lookup "description" = none) ∧
    (pyTruthyStr path = false →
      (getRepositoryTreeParams path).lookup "path" = none) ∧
    (pyTruthyStr repo = false →
      (searchParams query limit offset repo classif).lookup "repo" = none) ∧
    (pyTruthyStr classif = false →
      (searchParams query limit offset repo classif).lookup "classification" = none) ∧
    (pyTruthyDict metadata = false →
      (commitUploadPayload uploadId messageArg metadata).lookup "metadata" = none) := by
  refine ⟨fun hd => ?_, fun hp => ?_, fun hr => ?_, fun hc => ?_, fun hm => ?_⟩
  · simp [createRepositoryPayload, hd, List.lookup_cons]
  · simp [getRepositoryTreeParams, hp]
  · cases hct : pyTruthyStr classif <;>
      simp [searchParams, hr, hct, List.lookup_cons]
  · cases hrt : pyTruthyStr repo <;>
      simp [searchParams, hrt, hc, List.lookup_cons]
  · simp [commitUploadPayload, hm, List.lookup_cons]

/-- Witness for C9: the empty string and the empty mapping are falsy (not
only `None`), each builder omits the corresponding key at such arguments,
and the two search filters are omitted independently — `repo` empty while
`classification` is present, and `classification` absent while `repo` is
present. -/
theorem c9_falsy_omission_witness :
    pyTruthyStr (some "") = false ∧ pyTruthyDict (some []) = false ∧
    pyTruthyStr none = false ∧ pyTruthyDict none = false ∧
    (createRepositoryPayload "data" (some "")).lookup "description" = none ∧
    (getRepositoryTreeParams none).lookup "path" = none ∧
    (searchParams "q" 20 0 (some "") (some "public")).lookup "repo" = none ∧
    (searchParams "q" 20 0 (some "r1") none).lookup "classification" = none ∧
    (commitUploadPayload "u1" "msg" (some [])).lookup "metadata" = none := by
  refine ⟨by decide, by decide, by decide, by decide, ?_, ?_, ?_, ?_, ?_⟩
  · exact (c9_falsy_omission "data" "u1" "msg" "q" 20 0 (some "") none none none
      none).1 (by decide)
  · exact (c9_falsy_omission "data" "u1" "msg" "q" 20 0 none none none none
      none).2.1 (by decide)
  · exact (c9_falsy_omission "data" "u1" "msg" "q" 20 0 none none (some "")
      (some "public") none).2.2.1 (by decide)
  · exact (c9_falsy_omission "data" "u1" "msg" "q" 20 0 none none (some "r1")
      none none).2.2.2.1 (by decide)
  · exact (c9_falsy_omission "data" "u1" "msg" "q" 20 0 none none none none
      (some [])).2.2.2.2 (by decide)

/-- C10: when the data envelope lacks the corresponding key, each derived
view returns its fixed default instead of failing: `results` the empty
list, `total` 0, `limit` 20, `offset` 0, `facets` the empty list. -/
theorem c10_view_defaults (sr : SearchResponse) :
    (sr.data.lookup "results" = none → sr.resultsView = some []) ∧
    (sr.data.lookup "total" = none → sr.totalView = .num 0) ∧
    (sr.data.lookup "limit" = none → sr.limitView = .num 20) ∧
    (sr.data.lookup "offset" = none → sr.offsetView = .num 0) ∧
    (sr.data.lookup "facets" = none → sr.facetsView = some []) := by
  refine ⟨fun h => ?_, fun h => ?_, fun h => ?_, fun h => ?_, fun h => ?_⟩ <;>
    simp [SearchResponse.resultsView, SearchResponse.totalView,
          SearchResponse.limitView, SearchResponse.offsetView,
          SearchResponse.facetsView, h]

/-- Witness for C10 at the empty envelope. -/
theorem c10_view_defaults_witness :
    (SearchResponse.mk true []).resultsView = some [] ∧
    (SearchResponse.mk true []).totalView = .num 0 ∧
    (SearchResponse.mk true []).limitView = .num 20 ∧
    (SearchResponse.mk true []).offsetView = .num 0 ∧
    (SearchResponse.mk true []).facetsView = some [] :=
  ⟨(c10_view_defaults _).1 rfl, (c10_view_defaults _).2.1 rfl,
   (c10_view_defaults _).2.2.1 rfl, (c10_view_defaults _).2.2.2.1 rfl,
   (c10_view_defaults _).2.2.2.2 rfl⟩
